/-
Verification of the inventory-control domain entities of the white-lotus
repository against their natural-language specification.

The embedding is shallow: the Go entity code of
`internal/domain/entity/stock_item.go` and
`internal/domain/entity/reservation.go`, and the outbox publisher's
pending-row selection of the messaging layer, are translated into pure
Lean functions.  Go `int` is modelled as `Int` (the domain logic nowhere
relies on machine-word wraparound), `time.Time` as an `Int` instant with
`After` as `>`, and `*time.Time` as `Option Int`.  A Go method that
mutates its receiver and returns an `error` is modelled as a function
returning the post-state together with an optional error; the Go error
paths return before touching the receiver, so on an error the returned
state equals the input state.
-/
import Mathlib

namespace WhiteLotus

/-! ## Stock item (internal/domain/entity/stock_item.go) -/

/-- Errors of `stock_item.go` (the `errors.New` package variables). -/
inductive StockErr where
  | stockItemIDRequired
  | stockItemProductRequired
  | stockItemWarehouseRequired
  | quantityNegative
  | insufficientStock
  | insufficientReserved
  | reorderPointNegative
  | reorderQuantityNegative
deriving DecidableEq, Repr

/-- `StockItem` — stock level of a product in a specific warehouse. -/
structure StockItem where
  ID : String
  ProductID : String
  WarehouseID : String
  QuantityOnHand : Int
  QuantityReserved : Int
  ReorderPoint : Int
  ReorderQuantity : Int
  CreatedAt : Int
  UpdatedAt : Int
deriving DecidableEq, Repr

/-- `NewStockItem` — constructor with validation; `now` stands for
`time.Now().UTC()`. -/
def NewStockItem (id productID warehouseID : String)
    (reorderPoint reorderQuantity : Int) (now : Int) :
    Except StockErr StockItem :=
  if id = "" then .error .stockItemIDRequired
  else if productID = "" then .error .stockItemProductRequired
  else if warehouseID = "" then .error .stockItemWarehouseRequired
  else if reorderPoint < 0 then .error .reorderPointNegative
  else if reorderQuantity < 0 then .error .reorderQuantityNegative
  else .ok
    { ID := id
      ProductID := productID
      WarehouseID := warehouseID
      QuantityOnHand := 0
      QuantityReserved := 0
      ReorderPoint := reorderPoint
      ReorderQuantity := reorderQuantity
      CreatedAt := now
      UpdatedAt := now }

/-- `AvailableQuantity` — quantity available for reservation. -/
def StockItem.AvailableQuantity (s : StockItem) : Int :=
  s.QuantityOnHand - s.QuantityReserved

/-- `Reserve` — attempts to reserve a quantity of stock. -/
def StockItem.Reserve (s : StockItem) (quantity now : Int) :
    StockItem × Option StockErr :=
  if quantity < 0 then (s, some .quantityNegative)
  else if s.AvailableQuantity < quantity then (s, some .insufficientStock)
  else ({ s with QuantityReserved := s.QuantityReserved + quantity,
                 UpdatedAt := now }, none)

/-- `ReleaseReservation` — releases previously reserved stock. -/
def StockItem.ReleaseReservation (s : StockItem) (quantity now : Int) :
    StockItem × Option StockErr :=
  if quantity < 0 then (s, some .quantityNegative)
  else if s.QuantityReserved < quantity then (s, some .insufficientReserved)
  else ({ s with QuantityReserved := s.QuantityReserved - quantity,
                 UpdatedAt := now }, none)

/-- `Fulfill` — decrements both reserved and on-hand quantities. -/
def StockItem.Fulfill (s : StockItem) (quantity now : Int) :
    StockItem × Option StockErr :=
  if quantity < 0 then (s, some .quantityNegative)
  else if s.QuantityReserved < quantity then (s, some .insufficientReserved)
  else if s.QuantityOnHand < quantity then (s, some .insufficientStock)
  else ({ s with QuantityReserved := s.QuantityReserved - quantity,
                 QuantityOnHand := s.QuantityOnHand - quantity,
                 UpdatedAt := now }, none)

/-- `Replenish` — adds stock to the on-hand quantity. -/
def StockItem.Replenish (s : StockItem) (quantity now : Int) :
    StockItem × Option StockErr :=
  if quantity < 0 then (s, some .quantityNegative)
  else ({ s with QuantityOnHand := s.QuantityOnHand + quantity,
                 UpdatedAt := now }, none)

/-! ## Reservation (internal/domain/entity/reservation.go) -/

/-- `ReservationStatus` — current state of a reservation. -/
inductive ReservationStatus where
  | PENDING
  | CONFIRMED
  | RELEASED
  | FULFILLED
  | EXPIRED
deriving DecidableEq, Repr

/-- Errors of `reservation.go` (the `errors.New` package variables). -/
inductive ReservationErr where
  | reservationIDRequired
  | reservationOrderRequired
  | reservationItemsRequired
  | reservationItemQuantity
  | reservationNotPending
  | reservationNotConfirmed
  | reservationAlreadyReleased
  | reservationAlreadyFulfilled
  | reservationExpired
deriving DecidableEq, Repr

/-- `ReservationItem` — a single item in a reservation. -/
structure ReservationItem where
  StockItemID : String
  ProductID : String
  WarehouseID : String
  Quantity : Int
deriving DecidableEq, Repr

/-- `Reservation` — stock reserved for an order. -/
structure Reservation where
  ID : String
  OrderID : String
  Items : List ReservationItem
  Status : ReservationStatus
  ExpiresAt : Int
  CreatedAt : Int
  UpdatedAt : Int
  ReleasedAt : Option Int
  FulfilledAt : Option Int
deriving DecidableEq, Repr

/-- `NewReservation` — constructor with validation. -/
def NewReservation (id orderID : String) (items : List ReservationItem)
    (expiresAt now : Int) : Except ReservationErr Reservation :=
  if id = "" then .error .reservationIDRequired
  else if orderID = "" then .error .reservationOrderRequired
  else if items.length = 0 then .error .reservationItemsRequired
  else if items.any (fun item => item.Quantity ≤ 0) then
    .error .reservationItemQuantity
  else .ok
    { ID := id
      OrderID := orderID
      Items := items
      Status := .PENDING
      ExpiresAt := expiresAt
      CreatedAt := now
      UpdatedAt := now
      ReleasedAt := none
      FulfilledAt := none }

/-- `Confirm` — transitions the reservation to confirmed status;
`now` stands for `time.Now().UTC()` and Go's `After` is strict `>`. -/
def Reservation.Confirm (r : Reservation) (now : Int) :
    Reservation × Option ReservationErr :=
  if r.Status ≠ .PENDING then (r, some .reservationNotPending)
  else if now > r.ExpiresAt then (r, some .reservationExpired)
  else ({ r with Status := .CONFIRMED, UpdatedAt := now }, none)

/-- `Release` — releases the reserved stock back to available. -/
def Reservation.Release (r : Reservation) (now : Int) :
    Reservation × Option ReservationErr :=
  if r.Status = .RELEASED then (r, some .reservationAlreadyReleased)
  else if r.Status = .FULFILLED then (r, some .reservationAlreadyFulfilled)
  else ({ r with Status := .RELEASED, ReleasedAt := some now,
                 UpdatedAt := now }, none)

/-- `Fulfill` — marks the reservation as fulfilled (order shipped). -/
def Reservation.Fulfill (r : Reservation) (now : Int) :
    Reservation × Option ReservationErr :=
  if r.Status = .FULFILLED then (r, some .reservationAlreadyFulfilled)
  else if r.Status = .RELEASED then (r, some .reservationAlreadyReleased)
  else if r.Status ≠ .CONFIRMED ∧ r.Status ≠ .PENDING then
    (r, some .reservationNotConfirmed)
  else ({ r with Status := .FULFILLED, FulfilledAt := some now,
                 UpdatedAt := now }, none)

/-- `Expire` — marks the reservation as expired. -/
def Reservation.Expire (r : Reservation) (now : Int) :
    Reservation × Option ReservationErr :=
  if r.Status ≠ .PENDING ∧ r.Status ≠ .CONFIRMED then
    (r, some .reservationNotPending)
  else ({ r with Status := .EXPIRED, UpdatedAt := now }, none)

/-- The terminal statuses of the spec's state machine. -/
def ReservationStatus.terminal : ReservationStatus → Prop
  | .RELEASED => True
  | .EXPIRED => True
  | .FULFILLED => True
  | _ => False

instance (st : ReservationStatus) : Decidable st.terminal := by
  cases st <;> simp [ReservationStatus.terminal] <;> infer_instance

/-! ## Sequences of ledger mutations -/

/-- One call to a stock-item mutator, carrying the quantity argument and
the instant `time.Now()` returns during the call. -/
inductive StockOp where
  | reserve (quantity now : Int)
  | releaseReservation (quantity now : Int)
  | fulfill (quantity now : Int)
  | replenish (quantity now : Int)
deriving DecidableEq, Repr

/-- Apply one mutator call; the Go methods leave the receiver unchanged
on an error, so the post-state is the first component in every case. -/
def StockItem.applyOp (s : StockItem) : StockOp → StockItem × Option StockErr
  | .reserve q now => s.Reserve q now
  | .releaseReservation q now => s.ReleaseReservation q now
  | .fulfill q now => s.Fulfill q now
  | .replenish q now => s.Replenish q now

/-- Run a sequence of mutator calls, keeping the state a failed call
left untouched. -/
def StockItem.runOps (s : StockItem) : List StockOp → StockItem
  | [] => s
  | op :: rest => ((s.applyOp op).1).runOps rest

/-- The ledger invariant: `0 ≤ quantity_reserved ≤ quantity_on_hand`. -/
def StockInv (s : StockItem) : Prop :=
  0 ≤ s.QuantityReserved ∧ s.QuantityReserved ≤ s.QuantityOnHand

instance (s : StockItem) : Decidable (StockInv s) := by
  unfold StockInv; infer_instance

/-! ## The adjust mutator

The stock ledger's `adjust` mutator lives in the application layer of the
repository, which is not among the domain-entity sources; only its traces
(`MovementTypeAdjustment`, the `"adjustment"` reference type of the stock
movement DTO) appear there. -/

/-- Modelled from the spec: the `NegativeResult` failure mode of the
ledger (§4.A, "adjustment would break invariant"), absent from
`stock_item.go`. -/
inductive AdjustErr where
  | negativeResult
deriving DecidableEq, Repr

/-- Modelled from the spec: the ledger's fifth mutator
`adjust(±q, reason)` with precondition `on_hand + q ≥ 0` and
`reserved ≤ on_hand + q` after, postcondition `on_hand += q`
(movement type = adjustment). -/
def StockItem.Adjust (s : StockItem) (quantity now : Int) :
    StockItem × Option AdjustErr :=
  if s.QuantityOnHand + quantity < 0 then (s, some .negativeResult)
  else if s.QuantityOnHand + quantity < s.QuantityReserved then
    (s, some .negativeResult)
  else ({ s with QuantityOnHand := s.QuantityOnHand + quantity,
                 UpdatedAt := now }, none)

/-! ## Outbox publisher pending-entry selection
(`OutboxPublisher.fetchPendingEntries` of the messaging layer) -/

/-- `OutboxEntry` — one row of the `outbox` table. -/
structure OutboxEntry where
  ID : String
  AggregateType : String
  AggregateID : String
  EventType : String
  Payload : String
  CorrelationID : String
  CreatedAt : Int
  PublishedAt : Option Int
  RetryCount : Int
  LastError : Option String
deriving DecidableEq, Repr

/-- The `WHERE` clause of `fetchPendingEntries`:
`published_at IS NULL AND retry_count < $1`. -/
def OutboxEntry.pending (e : OutboxEntry) (maxRetries : Int) : Bool :=
  e.PublishedAt.isNone && decide (e.RetryCount < maxRetries)

/-- `fetchPendingEntries` — the SQL query
`SELECT ... FROM outbox WHERE published_at IS NULL AND retry_count < $1
ORDER BY created_at ASC LIMIT $2`, read as filter, sort and truncate
over the table's rows. -/
def fetchPendingEntries (outbox : List OutboxEntry) (maxRetries : Int)
    (limit : Nat) : List OutboxEntry :=
  (List.insertionSort (fun a b => a.CreatedAt ≤ b.CreatedAt)
    (outbox.filter (fun e => e.pending maxRetries))).take limit

/-! ## Theorems about the stock item -/

/-- C3: for every stock item and every quantity `q > 0`, if
`available ≥ q` then `Reserve q` succeeds, increases `QuantityReserved`
by exactly `q` and leaves `QuantityOnHand` unchanged; if `available < q`
it fails with the insufficient-stock error and leaves both counters
unchanged. -/
theorem Reserve_spec (s : StockItem) (q now : Int) (hq : 0 < q) :
    (q ≤ s.AvailableQuantity →
      (s.Reserve q now).2 = none ∧
      (s.Reserve q now).1.QuantityReserved = s.QuantityReserved + q ∧
      (s.Reserve q now).1.QuantityOnHand = s.QuantityOnHand) ∧
    (s.AvailableQuantity < q →
      (s.Reserve q now).2 = some .insufficientStock ∧
      (s.Reserve q now).1.QuantityReserved = s.QuantityReserved ∧
      (s.Reserve q now).1.QuantityOnHand = s.QuantityOnHand) := by
  have h0 : ¬ q < 0 := by omega
  constructor
  · intro h
    simp [StockItem.Reserve, h0, not_lt.mpr h]
  · intro h
    simp [StockItem.Reserve, h0, h]

/-- Witness for C3 at on-hand 10, reserved 2 (available 8): reserving
exactly 8 succeeds, reserving 9 fails. -/
theorem Reserve_spec_witness :
    (0:Int) < 8 ∧ (0:Int) < 9 ∧
    (((⟨"S", "P", "W", 10, 2, 0, 0, 0, 0⟩ : StockItem).Reserve 8 1).2
        = none ∧
     ((⟨"S", "P", "W", 10, 2, 0, 0, 0, 0⟩ : StockItem).Reserve 9 1).2
        = some .insufficientStock) :=
  ⟨by decide, by decide,
   ((Reserve_spec ⟨"S", "P", "W", 10, 2, 0, 0, 0, 0⟩ 8 1 (by decide)).1
      (by decide)).1,
   ((Reserve_spec ⟨"S", "P", "W", 10, 2, 0, 0, 0, 0⟩ 9 1 (by decide)).2
      (by decide)).1⟩

/-- C4: for every stock item satisfying the ledger invariant and every
`q > 0` with `available ≥ q`, `Reserve q` then `ReleaseReservation q`
both succeed and return both counters to their values before the
reserve. -/
theorem Reserve_Release_roundtrip (s : StockItem) (q n1 n2 : Int)
    (hinv : StockInv s) (hq : 0 < q) (h : q ≤ s.AvailableQuantity) :
    (s.Reserve q n1).2 = none ∧
    (((s.Reserve q n1).1).ReleaseReservation q n2).2 = none ∧
    (((s.Reserve q n1).1).ReleaseReservation q n2).1.QuantityOnHand
      = s.QuantityOnHand ∧
    (((s.Reserve q n1).1).ReleaseReservation q n2).1.QuantityReserved
      = s.QuantityReserved := by
  obtain ⟨h1, h2⟩ := hinv
  have h0 : ¬ q < 0 := by omega
  simp [StockItem.Reserve, StockItem.ReleaseReservation, h0,
    not_lt.mpr h, not_lt.mpr h1]

/-- Witness for C4 at on-hand 10, reserved 2, q = 5. -/
theorem Reserve_Release_roundtrip_witness :
    StockInv ⟨"S", "P", "W", 10, 2, 0, 0, 0, 0⟩ ∧ (0:Int) < 5 ∧
    (5:Int) ≤ (⟨"S", "P", "W", 10, 2, 0, 0, 0, 0⟩ :
      StockItem).AvailableQuantity ∧
    ((((⟨"S", "P", "W", 10, 2, 0, 0, 0, 0⟩ : StockItem).Reserve 5 1).1
        ).ReleaseReservation 5 2).1.QuantityReserved = 2 :=
  ⟨by decide, by decide, by decide,
   (Reserve_Release_roundtrip ⟨"S", "P", "W", 10, 2, 0, 0, 0, 0⟩ 5 1 2
      (by decide) (by decide) (by decide)).2.2.2⟩

/-- C5: for every stock item and every `q > 0`, if `reserved ≥ q` and
`on_hand ≥ q` then `Fulfill q` succeeds and decreases both counters by
exactly `q`; if `reserved < q` it fails with the insufficient-reserved
error and changes nothing; and on an invariant-satisfying item with
`available ≥ q`, `Reserve q` followed by `Fulfill q` succeeds and
reduces on-hand by exactly `q`. -/
theorem Fulfill_spec (s : StockItem) (q n1 n2 : Int) (hq : 0 < q) :
    (q ≤ s.QuantityReserved → q ≤ s.QuantityOnHand →
      (s.Fulfill q n1).2 = none ∧
      (s.Fulfill q n1).1.QuantityOnHand = s.QuantityOnHand - q ∧
      (s.Fulfill q n1).1.QuantityReserved = s.QuantityReserved - q) ∧
    (s.QuantityReserved < q →
      (s.Fulfill q n1).2 = some .insufficientReserved ∧
      (s.Fulfill q n1).1 = s) ∧
    (StockInv s → q ≤ s.AvailableQuantity →
      (s.Reserve q n1).2 = none ∧
      (((s.Reserve q n1).1).Fulfill q n2).2 = none ∧
      (((s.Reserve q n1).1).Fulfill q n2).1.QuantityOnHand
        = s.QuantityOnHand - q) := by
  have h0 : ¬ q < 0 := by omega
  refine ⟨fun hr ho => ?_, fun hr => ?_, fun hinv ha => ?_⟩
  · simp [StockItem.Fulfill, h0, not_lt.mpr hr, not_lt.mpr ho]
  · simp [StockItem.Fulfill, h0, hr]
  · obtain ⟨h1, h2⟩ := hinv
    have hosub : s.QuantityOnHand - s.QuantityReserved ≤ s.QuantityOnHand := by
      omega
    have ho : q ≤ s.QuantityOnHand := le_trans ha hosub
    simp [StockItem.Reserve, StockItem.Fulfill, h0, not_lt.mpr ha,
      not_lt.mpr ho, show ¬ s.QuantityReserved + q < q by omega]

/-- Witness for C5 at on-hand 10, reserved 6, q = 4: direct fulfill
succeeds, fulfilling 7 fails, and reserve-then-fulfill of 4 lowers
on-hand to 6. -/
theorem Fulfill_spec_witness :
    (0:Int) < 4 ∧
    (((⟨"S", "P", "W", 10, 6, 0, 0, 0, 0⟩ : StockItem).Fulfill 4 1).2
      = none ∧
     (((⟨"S", "P", "W", 10, 6, 0, 0, 0, 0⟩ : StockItem).Fulfill 7 1).2
      = some .insufficientReserved) ∧
     ((((⟨"S", "P", "W", 10, 6, 0, 0, 0, 0⟩ : StockItem).Reserve 4 1).1
        ).Fulfill 4 2).1.QuantityOnHand = 6) :=
  ⟨by decide,
   ((Fulfill_spec ⟨"S", "P", "W", 10, 6, 0, 0, 0, 0⟩ 4 1 2
      (by decide)).1 (by decide) (by decide)).1,
   ((Fulfill_spec ⟨"S", "P", "W", 10, 6, 0, 0, 0, 0⟩ 7 1 2
      (by decide)).2.1 (by decide)).1,
   (((Fulfill_spec ⟨"S", "P", "W", 10, 6, 0, 0, 0, 0⟩ 4 1 2
      (by decide)).2.2 (by decide) (by decide)).2.2)⟩

/-- C9: each of the four mutators returns the negative-quantity error,
leaving the item unchanged, exactly when the argument is negative; and
on an invariant-satisfying item a quantity of zero is accepted by all
four and is a no-op on both counters. -/
theorem quantity_validation (s : StockItem) (q now : Int) :
    (q < 0 →
      s.Reserve q now = (s, some .quantityNegative) ∧
      s.ReleaseReservation q now = (s, some .quantityNegative) ∧
      s.Fulfill q now = (s, some .quantityNegative) ∧
      s.Replenish q now = (s, some .quantityNegative)) ∧
    (0 ≤ q →
      (s.Reserve q now).2 ≠ some .quantityNegative ∧
      (s.ReleaseReservation q now).2 ≠ some .quantityNegative ∧
      (s.Fulfill q now).2 ≠ some .quantityNegative ∧
      (s.Replenish q now).2 ≠ some .quantityNegative) ∧
    (StockInv s →
      (s.Reserve 0 now).2 = none ∧
      (s.Reserve 0 now).1.QuantityOnHand = s.QuantityOnHand ∧
      (s.Reserve 0 now).1.QuantityReserved = s.QuantityReserved ∧
      (s.ReleaseReservation 0 now).2 = none ∧
      (s.ReleaseReservation 0 now).1.QuantityOnHand = s.QuantityOnHand ∧
      (s.ReleaseReservation 0 now).1.QuantityReserved
        = s.QuantityReserved ∧
      (s.Fulfill 0 now).2 = none ∧
      (s.Fulfill 0 now).1.QuantityOnHand = s.QuantityOnHand ∧
      (s.Fulfill 0 now).1.QuantityReserved = s.QuantityReserved ∧
      (s.Replenish 0 now).2 = none ∧
      (s.Replenish 0 now).1.QuantityOnHand = s.QuantityOnHand ∧
      (s.Replenish 0 now).1.QuantityReserved = s.QuantityReserved) := by
  refine ⟨fun hneg => ?_, fun hpos => ?_, fun hinv => ?_⟩
  · simp [StockItem.Reserve, StockItem.ReleaseReservation,
      StockItem.Fulfill, StockItem.Replenish, hneg]
  · have h0 : ¬ q < 0 := not_lt.mpr hpos
    refine ⟨?_, ?_, ?_, ?_⟩ <;>
      simp only [StockItem.Reserve, StockItem.ReleaseReservation,
        StockItem.Fulfill, StockItem.Replenish, h0, if_false] <;>
      (repeat' split) <;> simp
  · obtain ⟨h1, h2⟩ := hinv
    have hA : ¬ s.AvailableQuantity < 0 := by
      simp only [StockItem.AvailableQuantity]; omega
    simp [StockItem.Reserve, StockItem.ReleaseReservation,
      StockItem.Fulfill, StockItem.Replenish, hA,
      not_lt.mpr h1, not_lt.mpr (le_trans h1 h2)]

/-- Witness for C9 at on-hand 3, reserved 1: `Reserve (-2)` is rejected
with the negative-quantity error, `Reserve 0` succeeds, and zero-quantity
calls leave the reserved counter unchanged. -/
theorem quantity_validation_witness :
    (-2:Int) < 0 ∧ (0:Int) ≤ 0 ∧
    StockInv ⟨"S", "P", "W", 3, 1, 0, 0, 0, 0⟩ ∧
    ((⟨"S", "P", "W", 3, 1, 0, 0, 0, 0⟩ : StockItem).Reserve (-2) 1
      = (⟨"S", "P", "W", 3, 1, 0, 0, 0, 0⟩, some .quantityNegative)) ∧
    ((⟨"S", "P", "W", 3, 1, 0, 0, 0, 0⟩ : StockItem).Fulfill 0 1).2
      = none :=
  ⟨by decide, by decide, by decide,
   ((quantity_validation ⟨"S", "P", "W", 3, 1, 0, 0, 0, 0⟩ (-2) 1).1
      (by decide)).1,
   (((quantity_validation ⟨"S", "P", "W", 3, 1, 0, 0, 0, 0⟩ (-2) 1).2.2
      (by decide))).2.2.2.2.2.2.1⟩

/-- Each single mutator call preserves the ledger invariant. -/
theorem StockInv.applyOp (s : StockItem) (op : StockOp)
    (h : StockInv s) : StockInv ((s.applyOp op).1) := by
  obtain ⟨h1, h2⟩ := h
  cases op <;>
    simp only [StockItem.applyOp, StockItem.Reserve,
      StockItem.ReleaseReservation, StockItem.Fulfill,
      StockItem.Replenish, StockItem.AvailableQuantity, StockInv] <;>
    (repeat' split) <;>
    (constructor <;> (simp; try omega))

/-- Every state reached by a sequence of mutator calls from an
invariant-satisfying state satisfies the ledger invariant. -/
theorem StockInv.runOps (s : StockItem) (ops : List StockOp)
    (h : StockInv s) : StockInv (s.runOps ops) := by
  induction ops generalizing s with
  | nil => simpa [StockItem.runOps] using h
  | cons op rest ih =>
      simpa [StockItem.runOps] using ih _ (StockInv.applyOp s op h)

/-- C2: a stock item created by `NewStockItem` satisfies
`0 ≤ QuantityReserved ≤ QuantityOnHand`, and the invariant holds in
every state reachable from it by any sequence of `Reserve`,
`ReleaseReservation`, `Fulfill` and `Replenish` calls. -/
theorem NewStockItem_invariant (id productID warehouseID : String)
    (reorderPoint reorderQuantity now : Int) (s0 : StockItem)
    (ops : List StockOp)
    (h : NewStockItem id productID warehouseID reorderPoint
          reorderQuantity now = .ok s0) :
    StockInv s0 ∧ StockInv (s0.runOps ops) := by
  have hs : StockInv s0 := by
    simp only [NewStockItem] at h
    repeat' split at h
    all_goals simp_all
    obtain ⟨rfl⟩ := h
    exact ⟨le_refl 0, le_refl 0⟩
  exact ⟨hs, StockInv.runOps s0 ops hs⟩

/-- Witness for C2: a freshly created item, after reserving 0 (the
only quantity available at creation) and replenishing 5, satisfies the
invariant. -/
theorem NewStockItem_invariant_witness :
    NewStockItem "S" "P" "W" 1 2 0 =
      .ok ⟨"S", "P", "W", 0, 0, 1, 2, 0, 0⟩ ∧
    StockInv ((⟨"S", "P", "W", 0, 0, 1, 2, 0, 0⟩ : StockItem).runOps
      [.replenish 5 1, .reserve 3 2, .fulfill 2 3]) :=
  ⟨rfl,
   (NewStockItem_invariant "S" "P" "W" 1 2 0
      ⟨"S", "P", "W", 0, 0, 1, 2, 0, 0⟩
      [.replenish 5 1, .reserve 3 2, .fulfill 2 3] rfl).2⟩

/-! ## Theorems about the reservation state machine -/

/-- C1 counterexample: on a reservation in status `EXPIRED`, `Release`
returns no error and moves the status to `RELEASED`, contradicting the
claim that every mutator rejects every terminal state. -/
theorem Release_expired_counterexample :
    (((⟨"R1", "O1", [⟨"S1", "P1", "W1", 1⟩], .EXPIRED, 10, 0, 0, none,
        none⟩ : Reservation)).Release 20).2 = none ∧
    (((⟨"R1", "O1", [⟨"S1", "P1", "W1", 1⟩], .EXPIRED, 10, 0, 0, none,
        none⟩ : Reservation)).Release 20).1.Status = .RELEASED := by
  decide

/-- C1 amended: `Confirm`, `Fulfill` and `Expire` return an error and
leave the reservation unchanged from every terminal status
(`RELEASED`, `EXPIRED`, `FULFILLED`); `Release` returns an error and
leaves the reservation unchanged from `RELEASED` and `FULFILLED`, but
from `EXPIRED` it succeeds and sets the status to `RELEASED`. -/
theorem terminal_state_mutators (r : Reservation) (now : Int)
    (h : r.Status.terminal) :
    ((r.Confirm now).2.isSome ∧ (r.Confirm now).1 = r) ∧
    ((r.Fulfill now).2.isSome ∧ (r.Fulfill now).1 = r) ∧
    ((r.Expire now).2.isSome ∧ (r.Expire now).1 = r) ∧
    ((r.Status = .RELEASED ∨ r.Status = .FULFILLED) →
      (r.Release now).2.isSome ∧ (r.Release now).1 = r) ∧
    (r.Status = .EXPIRED →
      (r.Release now).2 = none ∧
      (r.Release now).1.Status = .RELEASED) := by
  cases hst : r.Status <;>
    simp_all [ReservationStatus.terminal, Reservation.Confirm,
      Reservation.Fulfill, Reservation.Expire, Reservation.Release, hst]

/-- Witness for the amended C1 on a concrete `FULFILLED` reservation:
`Confirm` errors and `Release` errors leaving it unchanged. -/
theorem terminal_state_mutators_witness :
    (⟨"R1", "O1", [⟨"S1", "P1", "W1", 1⟩], .FULFILLED, 10, 0, 0, none,
      some 5⟩ : Reservation).Status.terminal ∧
    (((⟨"R1", "O1", [⟨"S1", "P1", "W1", 1⟩], .FULFILLED, 10, 0, 0, none,
      some 5⟩ : Reservation)).Confirm 20).2.isSome ∧
    (((⟨"R1", "O1", [⟨"S1", "P1", "W1", 1⟩], .FULFILLED, 10, 0, 0, none,
      some 5⟩ : Reservation)).Release 20).2.isSome :=
  ⟨by decide,
   (terminal_state_mutators
      ⟨"R1", "O1", [⟨"S1", "P1", "W1", 1⟩], .FULFILLED, 10, 0, 0, none,
        some 5⟩ 20 (by decide)).1.1,
   ((terminal_state_mutators
      ⟨"R1", "O1", [⟨"S1", "P1", "W1", 1⟩], .FULFILLED, 10, 0, 0, none,
        some 5⟩ 20 (by decide)).2.2.2.1 (Or.inr rfl)).1⟩

/-- C6: `Reservation.Fulfill` succeeds exactly when the status is
`PENDING` or `CONFIRMED`; on success it sets the status to `FULFILLED`
and records `FulfilledAt`; from any other status it returns an error
and leaves the reservation unchanged. -/
theorem Reservation_Fulfill_spec (r : Reservation) (now : Int) :
    ((r.Fulfill now).2 = none ↔
      (r.Status = .PENDING ∨ r.Status = .CONFIRMED)) ∧
    ((r.Status = .PENDING ∨ r.Status = .CONFIRMED) →
      (r.Fulfill now).1.Status = .FULFILLED ∧
      (r.Fulfill now).1.FulfilledAt = some now) ∧
    (¬ (r.Status = .PENDING ∨ r.Status = .CONFIRMED) →
      (r.Fulfill now).2.isSome ∧ (r.Fulfill now).1 = r) := by
  cases hst : r.Status <;> simp [Reservation.Fulfill, hst]

/-- Witness for C6: fulfilling a concrete `CONFIRMED` reservation
succeeds, setting status `FULFILLED` and `FulfilledAt`. -/
theorem Reservation_Fulfill_spec_witness :
    (((⟨"R1", "O1", [⟨"S1", "P1", "W1", 2⟩], .CONFIRMED, 10, 0, 0, none,
        none⟩ : Reservation)).Fulfill 7).1.Status = .FULFILLED ∧
    (((⟨"R1", "O1", [⟨"S1", "P1", "W1", 2⟩], .CONFIRMED, 10, 0, 0, none,
        none⟩ : Reservation)).Fulfill 7).1.FulfilledAt = some 7 :=
  (Reservation_Fulfill_spec
    ⟨"R1", "O1", [⟨"S1", "P1", "W1", 2⟩], .CONFIRMED, 10, 0, 0, none,
      none⟩ 7).2.1 (Or.inr rfl)

/-- C10: on a `PENDING` reservation whose expiry lies strictly before
the current time, `Confirm` fails with the reservation-expired error
and leaves the reservation unchanged; `Confirm` succeeds exactly when
the reservation is pending and not yet past its expiry, and then the
status becomes `CONFIRMED`. -/
theorem Reservation_Confirm_spec (r : Reservation) (now : Int) :
    (r.Status = .PENDING → r.ExpiresAt < now →
      (r.Confirm now).2 = some .reservationExpired ∧
      (r.Confirm now).1 = r) ∧
    ((r.Confirm now).2 = none ↔
      (r.Status = .PENDING ∧ now ≤ r.ExpiresAt)) ∧
    ((r.Confirm now).2 = none → (r.Confirm now).1.Status = .CONFIRMED) := by
  cases hst : r.Status <;>
    rcases lt_or_le r.ExpiresAt now with hexp | hexp <;>
    simp [Reservation.Confirm, hst, hexp, not_lt.mpr, lt_iff_not_le]

/-- Witness for C10: a concrete pending reservation with expiry 10 seen
at time 11 is rejected as expired and stays `PENDING`, while at time 10
it confirms. -/
theorem Reservation_Confirm_spec_witness :
    (⟨"R1", "O1", [⟨"S1", "P1", "W1", 2⟩], .PENDING, 10, 0, 0, none,
      none⟩ : Reservation).Status = .PENDING ∧ (10:Int) < 11 ∧
    (((⟨"R1", "O1", [⟨"S1", "P1", "W1", 2⟩], .PENDING, 10, 0, 0, none,
        none⟩ : Reservation)).Confirm 11).2 = some .reservationExpired ∧
    (((⟨"R1", "O1", [⟨"S1", "P1", "W1", 2⟩], .PENDING, 10, 0, 0, none,
        none⟩ : Reservation)).Confirm 10).1.Status = .CONFIRMED :=
  ⟨rfl, by decide,
   ((Reservation_Confirm_spec
      ⟨"R1", "O1", [⟨"S1", "P1", "W1", 2⟩], .PENDING, 10, 0, 0, none,
        none⟩ 11).1 rfl (by decide)).1,
   (Reservation_Confirm_spec
      ⟨"R1", "O1", [⟨"S1", "P1", "W1", 2⟩], .PENDING, 10, 0, 0, none,
        none⟩ 10).2.2 (by decide)⟩

/-! ## Theorems about adjust and the outbox query -/

/-- C7: for every signed quantity `q` with `on_hand + q ≥ 0` and
`reserved ≤ on_hand + q` after the change, `Adjust q` succeeds, sets
`QuantityOnHand` to `QuantityOnHand + q` and leaves `QuantityReserved`
unchanged (the mutator itself is modelled from the spec, the
application layer that hosts it not being among the entity sources). -/
theorem Adjust_spec (s : StockItem) (q now : Int)
    (h1 : 0 ≤ s.QuantityOnHand + q)
    (h2 : s.QuantityReserved ≤ s.QuantityOnHand + q) :
    (s.Adjust q now).2 = none ∧
    (s.Adjust q now).1.QuantityOnHand = s.QuantityOnHand + q ∧
    (s.Adjust q now).1.QuantityReserved = s.QuantityReserved := by
  simp [StockItem.Adjust, not_lt.mpr h1, not_lt.mpr h2]

/-- Witness for C7 at on-hand 10, reserved 2, q = −3. -/
theorem Adjust_spec_witness :
    (0:Int) ≤ 10 + (-3) ∧ (2:Int) ≤ 10 + (-3) ∧
    ((⟨"S", "P", "W", 10, 2, 0, 0, 0, 0⟩ : StockItem).Adjust (-3) 1).2
      = none ∧
    ((⟨"S", "P", "W", 10, 2, 0, 0, 0, 0⟩ : StockItem).Adjust (-3) 1
      ).1.QuantityOnHand = 7 :=
  ⟨by decide, by decide,
   (Adjust_spec ⟨"S", "P", "W", 10, 2, 0, 0, 0, 0⟩ (-3) 1 (by decide)
      (by decide)).1,
   (Adjust_spec ⟨"S", "P", "W", 10, 2, 0, 0, 0, 0⟩ (-3) 1 (by decide)
      (by decide)).2.1⟩

/-- C8: every row returned by `fetchPendingEntries` comes from the
table, has `published_at` unset and `retry_count` strictly below
`max_retries`; the result is ordered by `created_at` ascending and has
at most the requested batch size many rows. -/
theorem fetchPendingEntries_spec (outbox : List OutboxEntry)
    (maxRetries : Int) (limit : Nat) :
    (∀ e ∈ fetchPendingEntries outbox maxRetries limit,
      e ∈ outbox ∧ e.PublishedAt = none ∧ e.RetryCount < maxRetries) ∧
    (fetchPendingEntries outbox maxRetries limit).Pairwise
      (fun a b => a.CreatedAt ≤ b.CreatedAt) ∧
    (fetchPendingEntries outbox maxRetries limit).length ≤ limit := by
  haveI htot : IsTotal OutboxEntry
      (fun a b => a.CreatedAt ≤ b.CreatedAt) :=
    ⟨fun a b => le_total a.CreatedAt b.CreatedAt⟩
  haveI htr : IsTrans OutboxEntry
      (fun a b => a.CreatedAt ≤ b.CreatedAt) :=
    ⟨fun a b c => le_trans⟩
  refine ⟨fun e he => ?_, ?_, ?_⟩
  · have hm : e ∈ List.insertionSort
        (fun a b : OutboxEntry => a.CreatedAt ≤ b.CreatedAt)
        (outbox.filter (fun x => x.pending maxRetries)) :=
      List.mem_of_mem_take he
    have hf := (List.mem_insertionSort _).mp hm
    refine ⟨List.mem_of_mem_filter hf, ?_⟩
    have hp := List.of_mem_filter hf
    simp only [OutboxEntry.pending, Bool.and_eq_true,
      Option.isNone_iff_eq_none, decide_eq_true_eq] at hp
    exact hp
  · have hs := List.sorted_insertionSort
      (fun a b : OutboxEntry => a.CreatedAt ≤ b.CreatedAt)
      (outbox.filter (fun x => x.pending maxRetries))
    exact hs.sublist (List.take_sublist limit _)
  · simp [fetchPendingEntries]

/-- Witness for C8 on a concrete three-row table (one published row,
one quarantined row, two pending rows out of creation order): the query
returns the two pending rows sorted by `created_at`. -/
theorem fetchPendingEntries_spec_witness :
    fetchPendingEntries
      [⟨"e1", "R", "a1", "t", "p", "c", 5, none, 0, none⟩,
       ⟨"e2", "R", "a2", "t", "p", "c", 3, some 4, 0, none⟩,
       ⟨"e3", "R", "a3", "t", "p", "c", 2, none, 5, none⟩,
       ⟨"e4", "R", "a4", "t", "p", "c", 1, none, 2, none⟩] 5 10 =
      [⟨"e4", "R", "a4", "t", "p", "c", 1, none, 2, none⟩,
       ⟨"e1", "R", "a1", "t", "p", "c", 5, none, 0, none⟩] ∧
    (∀ e ∈ fetchPendingEntries
      [⟨"e1", "R", "a1", "t", "p", "c", 5, none, 0, none⟩,
       ⟨"e2", "R", "a2", "t", "p", "c", 3, some 4, 0, none⟩,
       ⟨"e3", "R", "a3", "t", "p", "c", 2, none, 5, none⟩,
       ⟨"e4", "R", "a4", "t", "p", "c", 1, none, 2, none⟩] 5 10,
      e.PublishedAt = none ∧ e.RetryCount < 5) :=
  ⟨by decide, fun e he =>
    ((fetchPendingEntries_spec
      [⟨"e1", "R", "a1", "t", "p", "c", 5, none, 0, none⟩,
       ⟨"e2", "R", "a2", "t", "p", "c", 3, some 4, 0, none⟩,
       ⟨"e3", "R", "a3", "t", "p", "c", 2, none, 5, none⟩,
       ⟨"e4", "R", "a4", "t", "p", "c", 1, none, 2, none⟩] 5 10).1
      e he).2⟩

end WhiteLotus
